import Mathlib

/- Shallow embedding of the trialwatch ingestion pipeline: the ClinicalTrials.gov
   client (ctgov.py), the CTIS API wrapper (ctis.py) and the CTIS export
   harvester (ctis_harvester.py).  Network transport, SQL text and wall-clock
   sleeping cannot affect the verified claims and are abstracted into explicit
   outcome oracles; every control-flow decision of the source is kept. -/

namespace Ctgov

/-- Raw study payload as received from the API, before pydantic validation.
Each field models either a JSON key that may be missing or an optional module;
a field of type Option (List _) is none when the surrounding module
(designModule, conditionsModule, contactsLocationsModule) is absent. -/
structure RawStudy where
  nctId : Option String
  briefTitle : Option String
  officialTitle : Option String
  overallStatus : Option String
  lastChangedDate : Option String
  designPhases : Option (List String)
  conditionsList : Option (List String)
  locationCountries : Option (List (Option String))
  deriving Repr, DecidableEq

/-- Embeds IdentificationModule (ctgov.py lines 29-36): nct_id required,
both titles optional. -/
structure IdentificationModule where
  nct_id : String
  brief_title : Option String
  official_title : Option String
  deriving Repr, DecidableEq

/-- Embeds the title property (ctgov.py lines 34-36): Python evaluates
brief_title or official_title, where absent and empty strings are falsy. -/
def IdentificationModule.title (m : IdentificationModule) : Option String :=
  match m.brief_title with
  | some s => if s = "" then m.official_title else some s
  | none => m.official_title

/-- Embeds ApiStudy together with its ProtocolSection after validation:
required fields are present, optional modules stay optional. -/
structure ApiStudy where
  identification : IdentificationModule
  design_phases : Option (List String)
  overall_status : String
  last_changed_date : Option String
  conditions : Option (List String)
  locations : Option (List (Option String))
  deriving Repr, DecidableEq

/-- Embeds ApiStudy.model_validate: pydantic raises a ValidationError exactly
when a required field (nctId in identificationModule, overallStatus in
statusModule) is missing; every other field degrades to a default. -/
def model_validate (r : RawStudy) : Except String ApiStudy :=
  match r.nctId, r.overallStatus with
  | some nid, some st =>
      Except.ok ⟨⟨nid, r.briefTitle, r.officialTitle⟩, r.designPhases, st,
        r.lastChangedDate, r.conditionsList, r.locationCountries⟩
  | none, _ => Except.error "ValidationError: nctId missing"
  | some _, none => Except.error "ValidationError: overallStatus missing"

/-- Whitespace test for the Python str.strip model. -/
def isSpaceChar (c : Char) : Bool :=
  c = ' ' ∨ c = '\t' ∨ c = '\n' ∨ c = '\r'

/-- Drops leading whitespace characters. -/
def dropLeadingSpaces : List Char → List Char
  | [] => []
  | c :: cs => if isSpaceChar c then dropLeadingSpaces cs else c :: cs

/-- Models Python str.strip(): removes leading and trailing whitespace. -/
def pyStrip (s : String) : String :=
  ⟨(dropLeadingSpaces (dropLeadingSpaces s.data.reverse).reverse)⟩

/-- Splits a character list on the dash character; used to model
datetime.fromisoformat on date strings. -/
def splitDash : List Char → List (List Char)
  | [] => [[]]
  | c :: cs =>
      let r := splitDash cs
      if c = '-' then [] :: r
      else
        match r with
        | [] => [[c]]
        | g :: gs => (c :: g) :: gs

/-- Numeric value of a decimal digit character. -/
def digitVal (c : Char) : Option Nat :=
  if c.isDigit then some (c.toNat - 48) else none

/-- Reads an all-digit character list as a number, none on any other input. -/
def natOfDigits (cs : List Char) : Option Nat :=
  cs.foldl (fun acc c =>
    match acc, digitVal c with
    | some n, some d => some (n * 10 + d)
    | _, _ => none) (some 0)

/-- Models datetime.fromisoformat at the day granularity this pipeline uses
(the since parameter is a YYYY-MM-DD string per the get_trials signature):
a valid date maps to the integer y*10000+m*100+d, which is monotone in
calendar order; any other string fails to parse. -/
def parseIsoDate (s : String) : Option Int :=
  match splitDash s.data with
  | [y, m, d] =>
      if y.length = 4 ∧ m.length = 2 ∧ d.length = 2 then
        match natOfDigits y, natOfDigits m, natOfDigits d with
        | some yv, some mv, some dv =>
            if 1 ≤ mv ∧ mv ≤ 12 ∧ 1 ≤ dv ∧ dv ≤ 31 then
              some (Int.ofNat (yv * 10000 + mv * 100 + dv))
            else none
        | _, _, _ => none
      else none
  | _ => none

/-- Embeds Trial._parse_dt (ctgov.py lines 85-95): a date string is parsed
permissively and a failed parse degrades to none instead of raising. -/
def _parse_dt (v : Option String) : Option Int :=
  match v with
  | none => none
  | some s => parseIsoDate s

/-- Embeds the unified Trial model (ctgov.py lines 74-83); raw keeps the
original payload verbatim and is never interpreted downstream. -/
structure Trial where
  id : String
  title : Option String
  phases : List String
  status : String
  conditions : List String
  countries : List String
  last_changed : Option Int
  raw : RawStudy
  deriving Repr, DecidableEq

/-- Embeds Trial.from_api (ctgov.py lines 97-122).  Countries drop falsy
(absent or empty) entries and then pass through list(set(..)), modelled as
dedup with the arbitrary Python set order fixed to the dedup order;
conditions are taken from the module verbatim, with no such set step. -/
def Trial.from_api (a : ApiStudy) (raw : RawStudy) : Trial :=
  ⟨a.identification.nct_id,
   a.identification.title,
   a.design_phases.getD [],
   a.overall_status,
   a.conditions.getD [],
   ((a.locations.getD []).filterMap (fun c =>
      match c with
      | some s => if s = "" then none else some s
      | none => none)).dedup,
   _parse_dt a.last_changed_date,
   raw⟩

/-- Python truthiness of the optional phase argument of get_trials: none and
the empty string both disable the filter. -/
def phaseTruthy (phase : Option String) : Option String :=
  match phase with
  | some p => if p = "" then none else some p
  | none => none

/-- Embeds the phase filter of get_trials (ctgov.py line 175): drop exactly
when a truthy phase is not equal to any member of the stripped phase list. -/
def phaseDrop (phase : Option String) (phases : List String) : Bool :=
  match phaseTruthy phase with
  | none => false
  | some p => !((phases.map pyStrip).contains p)

/-- Embeds the since filter of get_trials (ctgov.py line 177): drop exactly
when both the cutoff and the parsed last_changed are present and the record
is strictly older than the cutoff. -/
def sinceDrop (dt_since : Option Int) (lc : Option Int) : Bool :=
  match dt_since, lc with
  | some s, some l => decide (l < s)
  | _, _ => false

/-- Embeds the body of the page loop of get_trials (ctgov.py lines 172-180)
on one page: the generator validates each payload with no try/except around
model_validate, so a ValidationError ends the iteration of the page; records
validated before it are yielded, filtered locally, in source order.  The
result pairs the yielded trials with the error that aborted the page, if
any. -/
def walkPage (phase : Option String) (dt_since : Option Int) :
    List RawStudy → List Trial × Option String
  | [] => ([], none)
  | raw :: rest =>
      match model_validate raw with
      | Except.error e => ([], some e)
      | Except.ok a =>
          let t := Trial.from_api a raw
          let r := walkPage phase dt_since rest
          if phaseDrop phase t.phases || sinceDrop dt_since t.last_changed then r
          else (t :: r.1, r.2)

/-- One parameter tuple of the upsert statement (ctgov.py lines 209-219 and
273-279, identical in the batch and the fallback path); last_updated is a
non-optional column by construction. -/
structure Row where
  nct_id : String
  title : Option String
  status : String
  phase : Option String
  conditions : List String
  locations : List String
  last_updated : Int
  source : String
  url : String
  deriving Repr, DecidableEq

/-- Embeds the phases join (ctgov.py line 205): a comma join of a nonempty
phase list, NULL for an empty one. -/
def phases_str (t : Trial) : Option String :=
  if t.phases.isEmpty then none else some (String.intercalate ", " t.phases)

/-- Builds the parameter tuple for one trial; now is the wall clock of the
write, substituted whenever last_changed is absent (trial.last_changed or
datetime.now()).  Within one save call the clock is modelled as constant. -/
def trialRow (t : Trial) (now : Int) : Row :=
  ⟨t.id, t.title, t.status, phases_str t, t.conditions, t.countries,
   t.last_changed.getD now, "clinicaltrials.gov",
   "https://clinicaltrials.gov/study/" ++ t.id⟩

/-- Outcome oracle for the database: whether connect succeeds, whether the
batch executemany succeeds, and whether the fallback single insert for the
record at each list position succeeds. -/
structure DBOracle where
  connectOk : Bool
  batchOk : Bool
  singleOk : Nat → Bool

/-- Outcome of the batch executemany plus commit (ctgov.py lines 223-245). -/
def batchInsert (db : DBOracle) (rows : List Row) : Except String (List Row) :=
  if db.batchOk then Except.ok rows else Except.error "batch insert failed"

/-- Outcome of one fallback insert plus commit (ctgov.py lines 281-283). -/
def singleInsert (db : DBOracle) (i : Nat) (row : Row) : Except String Row :=
  if db.singleOk i then Except.ok row else Except.error "single insert failed"

/-- Observable result of one save_trials_to_db call: the returned count, how
many connections were opened, how many SQL statements were attempted, and
the rows actually committed. -/
structure SaveResult where
  count : Nat
  connects : Nat
  sqlExecs : Nat
  committed : List Row
  deriving Repr, DecidableEq

/-- Embeds the per-record fallback loop (ctgov.py lines 256-291): every
single insert runs inside its own try/except, a failure rolls back and
continues with the next record, a success commits and counts. -/
def fallbackLoop (db : DBOracle) (now : Int) : Nat → List Trial → Nat × List Row
  | _, [] => (0, [])
  | i, t :: rest =>
      let r := fallbackLoop db now (i + 1) rest
      match singleInsert db i (trialRow t now) with
      | Except.ok row => (r.1 + 1, row :: r.2)
      | Except.error _ => r

/-- Embeds save_trials_to_db (ctgov.py lines 188-295).  The Except layer
carries any exception that would escape the Python function; the body
catches the batch failure and every single-insert failure, and rollback
and close are modelled as infallible, so the boundary contract is visible
in which values the function can produce. -/
def save_trials_to_db (trials : List Trial) (db : DBOracle) (now : Int) :
    Except String SaveResult :=
  if trials.isEmpty then Except.ok ⟨0, 0, 0, []⟩
  else if db.connectOk = false then Except.ok ⟨0, 1, 0, []⟩
  else
    match batchInsert db (trials.map (fun t => trialRow t now)) with
    | Except.ok rows => Except.ok ⟨trials.length, 1, 1, rows⟩
    | Except.error _ =>
        let r := fallbackLoop db now 0 trials
        Except.ok ⟨r.1, 1, 1 + trials.length, r.2⟩

/-- One event of the record stream feeding the orchestrator: an item is a
yield of get_trials, a fail is an exception raised while pulling the next
record. -/
inductive StreamEvent
  | item (t : Trial)
  | fail (msg : String)
  deriving Repr, DecidableEq

/-- Observable outcome of one orchestrator run: the returned total and the
batches handed to the writer, in order. -/
structure OrchRun where
  total : Nat
  written : List (List Trial)
  deriving Repr, DecidableEq

/-- Embeds the loop of get_trials_and_save (ctgov.py lines 318-357) over an
explicit event stream.  The writer is abstracted to its count function w,
matching that save_trials_to_db never raises.  State: pending batch, record
count, accumulated total, batches already written.  A fail event triggers
the except branch: flush the pending batch and return; the end of the
stream triggers the same final flush. -/
def orchLoop (w : List Trial → Nat) (bs maxT : Nat) :
    List StreamEvent → List Trial → Nat → Nat → List (List Trial) → OrchRun
  | [], batch, _, total, written =>
      if batch.isEmpty then ⟨total, written⟩
      else ⟨total + w batch, written ++ [batch]⟩
  | StreamEvent.fail _ :: _, batch, _, total, written =>
      if batch.isEmpty then ⟨total, written⟩
      else ⟨total + w batch, written ++ [batch]⟩
  | StreamEvent.item t :: rest, batch, count, total, written =>
      if bs ≤ (batch ++ [t]).length then
        if maxT ≤ count + 1 then
          ⟨total + w (batch ++ [t]), written ++ [batch ++ [t]]⟩
        else
          orchLoop w bs maxT rest [] (count + 1) (total + w (batch ++ [t]))
            (written ++ [batch ++ [t]])
      else
        if maxT ≤ count + 1 then
          ⟨total + w (batch ++ [t]), written ++ [batch ++ [t]]⟩
        else
          orchLoop w bs maxT rest (batch ++ [t]) (count + 1) total written

/-- Embeds get_trials_and_save at the orchestration level: empty initial
state, stream consumed until exhaustion, a fail event, or max_trials. -/
def get_trials_and_save (w : List Trial → Nat) (bs maxT : Nat)
    (events : List StreamEvent) : OrchRun :=
  orchLoop w bs maxT events [] 0 0 []

end Ctgov

/-- One HTTP attempt outcome: a JSON body (abstracted to a number), an HTTP
status error raised by raise_for_status, or a transport error. -/
inductive FetchOutcome
  | ok (body : Nat)
  | httpError (status : Nat)
  | netError
  deriving Repr, DecidableEq

/-- True on any outcome that raises an exception in Python. -/
def isFailure : FetchOutcome → Bool
  | FetchOutcome.ok _ => false
  | _ => true

/-- Decidable equality for Except values, needed to evaluate concrete retry
results. -/
instance {ε α : Type} [DecidableEq ε] [DecidableEq α] : DecidableEq (Except ε α)
  | Except.ok a, Except.ok b =>
      if h : a = b then Decidable.isTrue (h ▸ rfl)
      else Decidable.isFalse (fun he => h (Except.ok.inj he))
  | Except.error e1, Except.error e2 =>
      if h : e1 = e2 then Decidable.isTrue (h ▸ rfl)
      else Decidable.isFalse (fun he => h (Except.error.inj he))
  | Except.ok _, Except.error _ => Decidable.isFalse (fun he => Except.noConfusion he)
  | Except.error _, Except.ok _ => Decidable.isFalse (fun he => Except.noConfusion he)

/-- Result of a tenacity-decorated call: the surfaced result (the body, or
the failure of the last attempt) and the number of attempts consumed. -/
structure RetryResult where
  result : Except FetchOutcome Nat
  attempts : Nat
  deriving Repr, DecidableEq

/-- Embeds the tenacity retry decorator with stop_after_attempt: the oracle
gives the outcome of each attempt in order; any exception is retried, since
neither call site passes a retry predicate, and the exponential wait times
do not affect the surfaced result and are dropped. -/
def retryGo (o : Nat → FetchOutcome) : Nat → Nat → RetryResult
  | used, 0 => ⟨Except.error FetchOutcome.netError, used⟩
  | used, 1 =>
      match o used with
      | FetchOutcome.ok b => ⟨Except.ok b, used + 1⟩
      | f => ⟨Except.error f, used + 1⟩
  | used, n + 2 =>
      match o used with
      | FetchOutcome.ok b => ⟨Except.ok b, used + 1⟩
      | _ => retryGo o (used + 1) (n + 1)

/-- Embeds ctgov._get (ctgov.py line 128): stop_after_attempt(5). -/
def ctgov_get (o : Nat → FetchOutcome) : RetryResult := retryGo o 0 5

/-- Embeds ctis._fetch_page (ctis.py line 45): stop_after_attempt(3). -/
def ctis_fetch_page (o : Nat → FetchOutcome) : RetryResult := retryGo o 0 3

namespace CtisHarvester

/-- Local filesystem state: the set of existing artifact files. -/
structure FS where
  files : List String
  deriving Repr, DecidableEq

/-- Observable outcome of one run call: how many browser sessions were
launched, how many page navigations happened, and the returned reference. -/
structure RunOutcome where
  browserLaunches : Nat
  navigations : Nat
  ref : String
  deriving Repr, DecidableEq

/-- Environment of the harvester: upload_to_s3 modelled as a deterministic
map from the local path to the returned reference, and a per-attempt oracle
for whether the browser download flow succeeds. -/
structure HarvestEnv where
  upload : String → String
  attemptOk : Nat → Bool

/-- Embeds today_path (ctis_harvester.py lines 19-23) with the date string
passed explicitly. -/
def today_path (ts : String) : String := "/tmp/ctis_" ++ ts ++ ".csv"

/-- Embeds run (ctis_harvester.py lines 38-78) under its retry decorator,
stop_after_attempt(3).  Each attempt first checks whether the artifact for
the target date already exists and returns its upload reference with no
browser work; otherwise it launches a browser, navigates, and either
materializes the download at the artifact path or fails the attempt. -/
def runRetry (env : HarvestEnv) (date : String) :
    Nat → Nat → Nat → FS → Except String (RunOutcome × FS)
  | _, _, 0, _ => Except.error "retries exhausted"
  | attempt, launches, fuel + 1, fs =>
      if today_path date ∈ fs.files then
        Except.ok (⟨launches, launches, env.upload (today_path date)⟩, fs)
      else if env.attemptOk attempt then
        Except.ok (⟨launches + 1, launches + 1, env.upload (today_path date)⟩,
          ⟨today_path date :: fs.files⟩)
      else if fuel = 0 then Except.error "download failed"
      else runRetry env date (attempt + 1) (launches + 1) fuel fs

/-- The decorated entry point: at most three attempts. -/
def run (env : HarvestEnv) (date : String) (fs : FS) :
    Except String (RunOutcome × FS) :=
  runRetry env date 0 0 3 fs

end CtisHarvester

namespace Ctgov

/-- A payload with all required fields and only defaults elsewhere. -/
def rawOk1 : RawStudy :=
  ⟨some "NCT1", some "T1", none, some "RECRUITING", none, none, none, none⟩

/-- A payload missing the required native id. -/
def rawBad : RawStudy :=
  ⟨none, some "T2", none, some "RECRUITING", none, none, none, none⟩

/-- A valid payload placed after the invalid one on the same page. -/
def rawOk2 : RawStudy :=
  ⟨some "NCT3", some "T3", none, some "RECRUITING", none, none, none, none⟩

/-- Scenario B record 1: phases Phase 1. -/
def c4raw1 : RawStudy :=
  ⟨some "NCT1", none, none, some "R", none, some ["Phase 1"], none, none⟩

/-- Scenario B record 2: phases Phase 2 and Phase 3. -/
def c4raw2 : RawStudy :=
  ⟨some "NCT2", none, none, some "R", none, some ["Phase 2", "Phase 3"], none, none⟩

/-- Scenario B record 3: empty phase list. -/
def c4raw3 : RawStudy :=
  ⟨some "NCT3", none, none, some "R", none, some ([] : List String), none, none⟩

/-- A payload whose last-changed date string does not parse. -/
def c6raw : RawStudy :=
  ⟨some "NCT9", none, none, some "R", some "not-a-date", none, none, none⟩

/-- The validated form of c6raw. -/
def c6api : ApiStudy :=
  ⟨⟨"NCT9", none, none⟩, none, "R", some "not-a-date", none, none⟩

/-- A payload whose conditions module repeats the same string. -/
def c7raw : RawStudy :=
  ⟨some "NCT7", none, none, some "R", none, none, some ["cancer", "cancer"], none⟩

/-- The validated form of c7raw. -/
def c7api : ApiStudy :=
  ⟨⟨"NCT7", none, none⟩, none, "R", none, some ["cancer", "cancer"], none⟩

/-- An empty payload reused as the raw field of synthetic trials. -/
def emptyRaw : RawStudy := ⟨none, none, none, none, none, none, none, none⟩

/-- A minimal trial used as concrete writer and orchestrator input; its
last_changed is absent. -/
def dummyTrial (s : String) : Trial := ⟨s, none, [], "R", [], [], none, emptyRaw⟩

/-- A database oracle in which nothing works. -/
def dbAllFail : DBOracle := ⟨false, false, fun _ => false⟩

/-- A database oracle in which the batch path works. -/
def dbBatchOk : DBOracle := ⟨true, true, fun _ => true⟩

/-- A database oracle in which the batch fails but every fallback insert
works. -/
def dbFallbackOk : DBOracle := ⟨true, false, fun _ => true⟩

end Ctgov

/-- An oracle that answers 404 on the first attempt and succeeds after. -/
def oracle404 : Nat → FetchOutcome :=
  fun n => if n = 0 then FetchOutcome.httpError 404 else FetchOutcome.ok 7

/-- An oracle that answers 404 on every attempt. -/
def oracleAll404 : Nat → FetchOutcome := fun _ => FetchOutcome.httpError 404

namespace CtisHarvester

/-- A concrete harvester environment: deterministic upload references and a
browser flow that always succeeds. -/
def exEnv : HarvestEnv := ⟨fun p => "https://s3/" ++ p, fun _ => true⟩

/-- The filesystem after a first successful run for 2025-01-01. -/
def exFS1 : FS := ⟨["/tmp/ctis_2025-01-01.csv"]⟩

end CtisHarvester

namespace Ctgov

/-- A payload with a missing required field fails validation with the fixed
message. -/
lemma model_validate_noId (r : RawStudy) (h : r.nctId = none) :
    model_validate r = Except.error "ValidationError: nctId missing" := by
  rcases r with ⟨nid, bt, ot, st, lcd, dp, cl, lc⟩
  cases h
  rfl

/-- Unfolding walkPage on a page whose head fails validation. -/
lemma walkPage_cons_err (phase : Option String) (s : Option Int)
    (raw : RawStudy) (rest : List RawStudy) (e : String)
    (h : model_validate raw = Except.error e) :
    walkPage phase s (raw :: rest) = ([], some e) := by
  simp [walkPage, h]

/-- Unfolding walkPage on a page whose head validates. -/
lemma walkPage_cons_ok (phase : Option String) (s : Option Int)
    (raw : RawStudy) (rest : List RawStudy) (a : ApiStudy)
    (h : model_validate raw = Except.ok a) :
    walkPage phase s (raw :: rest) =
      if phaseDrop phase (Trial.from_api a raw).phases
          || sinceDrop s (Trial.from_api a raw).last_changed
      then walkPage phase s rest
      else (Trial.from_api a raw :: (walkPage phase s rest).1,
        (walkPage phase s rest).2) := by
  simp [walkPage, h]

/-- C2 counterexample: on the page rawOk1, rawBad, rawOk2 the walker yields
only the first record and then stops with a validation error; the third
record of the page is never yielded, contradicting the claim that the rest
of the page proceeds. -/
theorem c2_counterexample :
    ((walkPage none none [rawOk1, rawBad, rawOk2]).1.map Trial.id = ["NCT1"] ∧
     (walkPage none none [rawOk1, rawBad, rawOk2]).2
       = some "ValidationError: nctId missing") ∧
    ¬ (walkPage none none [rawOk1, rawBad, rawOk2]).1.map Trial.id
       = ["NCT1", "NCT3"] := by
  decide

/-- C2 amended: a payload missing the required native id raises a validation
error that aborts the page: records before it are yielded, no later record
of the page is processed; payloads with the required fields present always
validate, whatever the optional fields. -/
theorem c2_required_field_aborts_page :
    (∀ (phase : Option String) (s : Option Int) (pre post : List RawStudy)
       (bad : RawStudy),
      bad.nctId = none →
      (walkPage phase s pre).2 = none →
      walkPage phase s (pre ++ bad :: post)
        = ((walkPage phase s pre).1, some "ValidationError: nctId missing")) ∧
    (∀ (r : RawStudy) (nid st : String),
      r.nctId = some nid → r.overallStatus = some st →
      model_validate r = Except.ok ⟨⟨nid, r.briefTitle, r.officialTitle⟩,
        r.designPhases, st, r.lastChangedDate, r.conditionsList,
        r.locationCountries⟩) := by
  constructor
  · intro phase s pre
    induction pre with
    | nil =>
        intro post bad hb _
        rw [List.nil_append,
          walkPage_cons_err phase s bad post _ (model_validate_noId bad hb)]
        rfl
    | cons raw rest ih =>
        intro post bad hb hok
        cases hv : model_validate raw with
        | error e =>
            rw [walkPage_cons_err phase s raw rest e hv] at hok
            simp at hok
        | ok a =>
            have hsnd : (walkPage phase s rest).2 = none := by
              rw [walkPage_cons_ok phase s raw rest a hv] at hok
              by_cases hc : phaseDrop phase (Trial.from_api a raw).phases
                  || sinceDrop s (Trial.from_api a raw).last_changed
              · rwa [if_pos hc] at hok
              · rw [if_neg hc] at hok; exact hok
            have hih := ih post bad hb hsnd
            rw [List.cons_append,
              walkPage_cons_ok phase s raw (rest ++ bad :: post) a hv,
              walkPage_cons_ok phase s raw rest a hv]
            by_cases hc : phaseDrop phase (Trial.from_api a raw).phases
                || sinceDrop s (Trial.from_api a raw).last_changed
            · rw [if_pos hc, if_pos hc, hih]
            · rw [if_neg hc, if_neg hc, hih]
  · intro r nid st h1 h2
    rcases r with ⟨n0, bt, ot, st0, lcd, dp, cl, lc⟩
    cases h1
    cases h2
    rfl

/-- C2 witness: the abort behavior at a concrete page. -/
theorem c2_witness :
    walkPage none none ([rawOk1] ++ rawBad :: [rawOk2])
      = ((walkPage none none [rawOk1]).1,
          some "ValidationError: nctId missing") :=
  c2_required_field_aborts_page.1 none none [rawOk1] [rawOk2] rawBad rfl rfl

/-- C4 counterexample: with phase 2 the walker yields nothing from the
scenario B page, in particular not the second record. -/
theorem c4_counterexample :
    (walkPage (some "2") none [c4raw1, c4raw2, c4raw3]).1 = [] ∧
    ¬ (walkPage (some "2") none [c4raw1, c4raw2, c4raw3]).1.map Trial.id
       = ["NCT2"] := by
  decide

/-- C4 amended: the phase filter is an exact string match against the
stripped phase list, so phase 2 matches no record of the scenario B page
and nothing is yielded; the exact value Phase 2 yields exactly the second
record. -/
theorem c4_exact_match_filter :
    (walkPage (some "2") none [c4raw1, c4raw2, c4raw3]).1 = [] ∧
    (walkPage (some "Phase 2") none [c4raw1, c4raw2, c4raw3]).1.map Trial.id
      = ["NCT2"] := by
  decide

/-- C6: the since filter drops a record exactly when both the cutoff and the
parsed last_changed are present and the record is strictly older; hence a
record whose last_changed is absent (missing or unparseable date string) is
yielded by the walker for every cutoff, provided it passes the phase
filter. -/
theorem c6_absent_date_never_dropped :
    (∀ s lc : Option Int, sinceDrop s lc = true ↔
      ∃ sv lv : Int, s = some sv ∧ lc = some lv ∧ lv < sv) ∧
    (∀ (phase : Option String) (s : Option Int) (raw : RawStudy)
       (rest : List RawStudy) (a : ApiStudy),
      model_validate raw = Except.ok a →
      (Trial.from_api a raw).last_changed = none →
      phaseDrop phase (Trial.from_api a raw).phases = false →
      (walkPage phase s (raw :: rest)).1
        = Trial.from_api a raw :: (walkPage phase s rest).1) := by
  constructor
  · intro s lc
    cases s with
    | none => simp [sinceDrop]
    | some sv =>
        cases lc with
        | none => simp [sinceDrop]
        | some lv => simp [sinceDrop]
  · intro phase s raw rest a hv hnone hph
    rw [walkPage_cons_ok phase s raw rest a hv]
    have hs : sinceDrop s (Trial.from_api a raw).last_changed = false := by
      rw [hnone]; cases s <;> rfl
    rw [hph, hs]
    simp

/-- C6 witness: a record with an unparseable date survives a since cutoff. -/
theorem c6_witness :
    (walkPage none (some 99999999) [c6raw]).1
      = Trial.from_api c6api c6raw :: (walkPage none (some 99999999) []).1 :=
  c6_absent_date_never_dropped.2 none (some 99999999) c6raw [] c6api rfl rfl rfl

/-- C7 counterexample: a payload repeating the same condition string yields
a constructed record whose conditions list keeps the duplicate, so the
conditions field does not have set semantics. -/
theorem c7_counterexample :
    (model_validate c7raw).map (fun a => (Trial.from_api a c7raw).conditions)
      = Except.ok ["cancer", "cancer"] ∧
    ¬ (["cancer", "cancer"] : List String).Nodup := by
  constructor
  · rfl
  · decide

/-- C7 amended: the conditions of the constructed record are the source
condition list verbatim, duplicates included; it is the countries field
that is deduplicated. -/
theorem c7_conditions_verbatim (r : RawStudy) (a : ApiStudy)
    (h : model_validate r = Except.ok a) :
    (Trial.from_api a r).conditions = r.conditionsList.getD [] ∧
    (Trial.from_api a r).countries.Nodup := by
  rcases r with ⟨nid, bt, ot, st, lcd, dp, cl, lc⟩
  cases nid with
  | none => exact absurd h (by simp [model_validate])
  | some nid =>
      cases st with
      | none => exact absurd h (by simp [model_validate])
      | some st =>
          have ha : a = ⟨⟨nid, bt, ot⟩, dp, st, lcd, cl, lc⟩ := by
            simp only [model_validate] at h
            exact (Except.ok.inj h).symm
          subst ha
          exact ⟨rfl, List.nodup_dedup _⟩

/-- C7 witness: the verbatim copy at the concrete duplicated payload. -/
theorem c7_witness :
    (Trial.from_api c7api c7raw).conditions = c7raw.conditionsList.getD [] ∧
    (Trial.from_api c7api c7raw).countries.Nodup :=
  c7_conditions_verbatim c7raw c7api rfl

/-- The fallback count equals the number of committed fallback rows. -/
lemma fallbackLoop_count (db : DBOracle) (now : Int) :
    ∀ (i : Nat) (trials : List Trial),
      (fallbackLoop db now i trials).1 = (fallbackLoop db now i trials).2.length := by
  intro i trials
  induction trials generalizing i with
  | nil => rfl
  | cons t rest ih =>
      cases h : singleInsert db i (trialRow t now) with
      | ok row => simp [fallbackLoop, h, ih (i + 1)]
      | error e => simp [fallbackLoop, h, ih (i + 1)]

/-- When every fallback insert fails, nothing is counted or committed. -/
lemma fallbackLoop_allFail (db : DBOracle) (now : Int)
    (h : ∀ i, db.singleOk i = false) :
    ∀ (i : Nat) (trials : List Trial), fallbackLoop db now i trials = (0, []) := by
  intro i trials
  induction trials generalizing i with
  | nil => rfl
  | cons t rest ih => simp [fallbackLoop, singleInsert, h i, ih (i + 1)]

/-- C1: save_trials_to_db always returns an ok count equal to the number of
committed rows, never an error value, and under total failure (connection
refused, or batch failure with every fallback insert failing) the count is
zero. -/
theorem c1_save_never_raises (trials : List Trial) (db : DBOracle) (now : Int) :
    (∃ r : SaveResult, save_trials_to_db trials db now = Except.ok r ∧
      r.count = r.committed.length) ∧
    ((db.connectOk = false ∨ (db.batchOk = false ∧ ∀ i, db.singleOk i = false)) →
      ∃ r : SaveResult, save_trials_to_db trials db now = Except.ok r ∧
        r.count = 0) := by
  cases trials with
  | nil =>
      exact ⟨⟨⟨0, 0, 0, []⟩, rfl, rfl⟩, fun _ => ⟨⟨0, 0, 0, []⟩, rfl, rfl⟩⟩
  | cons t rest =>
      cases hc : db.connectOk with
      | false =>
          constructor
          · exact ⟨⟨0, 1, 0, []⟩, by simp [save_trials_to_db, hc], rfl⟩
          · exact fun _ => ⟨⟨0, 1, 0, []⟩, by simp [save_trials_to_db, hc], rfl⟩
      | true =>
          cases hb : db.batchOk with
          | true =>
              constructor
              · refine ⟨⟨(t :: rest).length, 1, 1,
                  (t :: rest).map (fun u => trialRow u now)⟩, ?_, ?_⟩
                · simp [save_trials_to_db, hc, batchInsert, hb]
                · simp
              · intro hfail
                rcases hfail with h1 | h2
                · simp at h1
                · simp at h2
          | false =>
              constructor
              · refine ⟨⟨(fallbackLoop db now 0 (t :: rest)).1, 1,
                  1 + (t :: rest).length, (fallbackLoop db now 0 (t :: rest)).2⟩,
                  ?_, ?_⟩
                · simp [save_trials_to_db, hc, batchInsert, hb]
                · exact fallbackLoop_count db now 0 (t :: rest)
              · intro hfail
                have hall : ∀ i, db.singleOk i = false := by
                  rcases hfail with h1 | h2
                  · simp at h1
                  · exact h2.2
                refine ⟨⟨(fallbackLoop db now 0 (t :: rest)).1, 1,
                  1 + (t :: rest).length, (fallbackLoop db now 0 (t :: rest)).2⟩,
                  ?_, ?_⟩
                · simp [save_trials_to_db, hc, batchInsert, hb]
                · rw [fallbackLoop_allFail db now hall 0 (t :: rest)]

/-- C1 witness: total failure at a concrete input returns zero, not an
error. -/
theorem c1_witness :
    ∃ r : SaveResult,
      save_trials_to_db [dummyTrial "NCT0"] dbAllFail 0 = Except.ok r ∧
      r.count = 0 :=
  (c1_save_never_raises [dummyTrial "NCT0"] dbAllFail 0).2 (Or.inl rfl)

/-- C9: an empty record list returns zero immediately, with no connection
opened and no SQL statement attempted. -/
theorem c9_empty_input_short_circuits (db : DBOracle) (now : Int) :
    save_trials_to_db [] db now = Except.ok ⟨0, 0, 0, []⟩ := rfl

/-- C10: when last_changed is absent, both the batch path and the fallback
path store the wall clock of the write as last_updated (the column is an
Int, never NULL by construction), so two writes of the same date-less
record at different times store different values. -/
theorem c10_dateless_records_get_write_time (t : Trial) (db1 db2 : DBOracle)
    (now1 now2 : Int) (hlc : t.last_changed = none)
    (h1c : db1.connectOk = true) (h1b : db1.batchOk = true)
    (h2c : db2.connectOk = true) (h2b : db2.batchOk = false)
    (h2s : db2.singleOk 0 = true) (hne : now1 ≠ now2) :
    ∃ r1 r2 : SaveResult,
      save_trials_to_db [t] db1 now1 = Except.ok r1 ∧
      save_trials_to_db [t] db2 now2 = Except.ok r2 ∧
      r1.committed.map Row.last_updated = [now1] ∧
      r2.committed.map Row.last_updated = [now2] ∧
      r1.committed.map Row.last_updated ≠ r2.committed.map Row.last_updated := by
  refine ⟨⟨1, 1, 1, [trialRow t now1]⟩, ⟨1, 1, 2, [trialRow t now2]⟩,
    ?_, ?_, ?_, ?_, ?_⟩
  · simp [save_trials_to_db, batchInsert, h1c, h1b]
  · simp [save_trials_to_db, batchInsert, fallbackLoop, singleInsert,
      h2c, h2b, h2s]
  · simp [trialRow, hlc]
  · simp [trialRow, hlc]
  · simp [trialRow, hlc, hne]

/-- C10 witness: the two paths at a concrete date-less trial and two
distinct write times. -/
theorem c10_witness :
    ∃ r1 r2 : SaveResult,
      save_trials_to_db [dummyTrial "NCTA"] dbBatchOk 0 = Except.ok r1 ∧
      save_trials_to_db [dummyTrial "NCTA"] dbFallbackOk 1 = Except.ok r2 ∧
      r1.committed.map Row.last_updated = [0] ∧
      r2.committed.map Row.last_updated = [1] ∧
      r1.committed.map Row.last_updated ≠ r2.committed.map Row.last_updated :=
  c10_dateless_records_get_write_time (dummyTrial "NCTA") dbBatchOk dbFallbackOk
    0 1 rfl rfl rfl rfl rfl rfl (by decide)

end Ctgov

/-- A failing attempt with remaining budget moves to the next attempt. -/
lemma retryGo_fail_step (o : Nat → FetchOutcome) (used n : Nat)
    (h : isFailure (o used) = true) :
    retryGo o used (n + 2) = retryGo o (used + 1) (n + 1) := by
  cases ho : o used with
  | ok b => rw [ho] at h; exact absurd h (by simp [isFailure])
  | httpError s => simp [retryGo, ho]
  | netError => simp [retryGo, ho]

/-- A failing final attempt surfaces its own failure. -/
lemma retryGo_fail_one (o : Nat → FetchOutcome) (used : Nat)
    (h : isFailure (o used) = true) :
    retryGo o used 1 = ⟨Except.error (o used), used + 1⟩ := by
  cases ho : o used with
  | ok b => rw [ho] at h; exact absurd h (by simp [isFailure])
  | httpError s => simp [retryGo, ho]
  | netError => simp [retryGo, ho]

/-- A successful attempt returns at once. -/
lemma retryGo_ok (o : Nat → FetchOutcome) (used n b : Nat)
    (h : o used = FetchOutcome.ok b) :
    retryGo o used (n + 1) = ⟨Except.ok b, used + 1⟩ := by
  cases n with
  | zero => simp [retryGo, h]
  | succ m =>
      show retryGo o used (m + 2) = _
      simp [retryGo, h]

/-- When the first n+1 attempts all fail, the failure of the last one is
surfaced after exactly n+1 attempts. -/
lemma retryGo_allFail (o : Nat → FetchOutcome) :
    ∀ (n used : Nat), (∀ i, i ≤ n → isFailure (o (used + i)) = true) →
      retryGo o used (n + 1) = ⟨Except.error (o (used + n)), used + n + 1⟩ := by
  intro n
  induction n with
  | zero =>
      intro used h
      have h0 : isFailure (o used) = true := by simpa using h 0 (Nat.le_refl 0)
      simpa using retryGo_fail_one o used h0
  | succ m ih =>
      intro used h
      have h0 : isFailure (o used) = true := by simpa using h 0 (Nat.zero_le _)
      have hstep : retryGo o used (m + 1 + 1) = retryGo o (used + 1) (m + 1) :=
        retryGo_fail_step o used m h0
      have hrest : ∀ i, i ≤ m → isFailure (o (used + 1 + i)) = true := by
        intro i hi
        have hx := h (i + 1) (Nat.succ_le_succ hi)
        have he : used + 1 + i = used + (i + 1) := by omega
        rw [he]
        exact hx
      have heq : used + 1 + m = used + (m + 1) := by omega
      rw [hstep, ih (used + 1) hrest, heq]

/-- C3 counterexample: a 404 response (a 4xx that is not a rate limit) on
the first attempt is retried, not surfaced after a single attempt: with a
success on the second attempt the decorated _get returns the body after
two attempts. -/
theorem c3_counterexample :
    ctgov_get oracle404 = ⟨Except.ok 7, 2⟩ ∧
    ¬ (ctgov_get oracle404).attempts = 1 := by
  decide

/-- C3 amended: neither retry decorator has a retry predicate, so every
exception, 4xx responses included, is retried with backoff up to the
attempt cap (5 attempts for ctgov._get, 3 for ctis._fetch_page); only
after the cap is the last failure surfaced, and a failure followed by a
success within the budget succeeds. -/
theorem c3_all_errors_retried :
    (∀ o : Nat → FetchOutcome, (∀ i, i ≤ 4 → isFailure (o i) = true) →
      ctgov_get o = ⟨Except.error (o 4), 5⟩) ∧
    (∀ o : Nat → FetchOutcome, (∀ i, i ≤ 2 → isFailure (o i) = true) →
      ctis_fetch_page o = ⟨Except.error (o 2), 3⟩) ∧
    (∀ (o : Nat → FetchOutcome) (b : Nat),
      isFailure (o 0) = true → o 1 = FetchOutcome.ok b →
      ctgov_get o = ⟨Except.ok b, 2⟩) := by
  refine ⟨?_, ?_, ?_⟩
  · intro o h
    have hall := retryGo_allFail o 4 0 (fun i hi => by simpa using h i hi)
    simpa [ctgov_get] using hall
  · intro o h
    have hall := retryGo_allFail o 2 0 (fun i hi => by simpa using h i hi)
    simpa [ctis_fetch_page] using hall
  · intro o b h0 h1
    have hstep : retryGo o 0 5 = retryGo o 1 4 := retryGo_fail_step o 0 3 h0
    have hok : retryGo o 1 4 = ⟨Except.ok b, 2⟩ := retryGo_ok o 1 3 b h1
    show retryGo o 0 5 = ⟨Except.ok b, 2⟩
    rw [hstep, hok]

/-- C3 witness: five straight 404 responses exhaust the budget of _get and
surface the last failure. -/
theorem c3_witness :
    ctgov_get oracleAll404 = ⟨Except.error (oracleAll404 4), 5⟩ :=
  c3_all_errors_retried.1 oracleAll404 (fun _ _ => rfl)

namespace CtisHarvester

/-- Unfolds one attempt of the retry loop. -/
lemma runRetry_succ (env : HarvestEnv) (date : String)
    (attempt launches fuel : Nat) (fs : FS) :
    runRetry env date attempt launches (fuel + 1) fs
      = if today_path date ∈ fs.files then
          Except.ok (⟨launches, launches, env.upload (today_path date)⟩, fs)
        else if env.attemptOk attempt then
          Except.ok (⟨launches + 1, launches + 1,
            env.upload (today_path date)⟩, ⟨today_path date :: fs.files⟩)
        else if fuel = 0 then Except.error "download failed"
        else runRetry env date (attempt + 1) (launches + 1) fuel fs := rfl

/-- Any successful run returns the upload reference of the artifact path
and leaves the artifact present on disk. -/
lemma runRetry_ok_ref (env : HarvestEnv) (date : String) :
    ∀ (fuel attempt launches : Nat) (fs : FS) (r : RunOutcome) (fs2 : FS),
      runRetry env date attempt launches fuel fs = Except.ok (r, fs2) →
      r.ref = env.upload (today_path date) ∧ today_path date ∈ fs2.files := by
  intro fuel
  induction fuel with
  | zero =>
      intro attempt launches fs r fs2 h
      simp [runRetry] at h
  | succ fuel ih =>
      intro attempt launches fs r fs2 h
      rw [runRetry_succ] at h
      by_cases hmem : today_path date ∈ fs.files
      · rw [if_pos hmem] at h
        simp only [Except.ok.injEq, Prod.mk.injEq] at h
        obtain ⟨hr, hf⟩ := h
        subst hr
        subst hf
        exact ⟨rfl, hmem⟩
      · rw [if_neg hmem] at h
        by_cases hok : env.attemptOk attempt
        · rw [if_pos hok] at h
          simp only [Except.ok.injEq, Prod.mk.injEq] at h
          obtain ⟨hr, hf⟩ := h
          subst hr
          subst hf
          exact ⟨rfl, List.mem_cons_self _ _⟩
        · rw [if_neg hok] at h
          by_cases hz : fuel = 0
          · rw [if_pos hz] at h
            cases h
          · rw [if_neg hz] at h
            exact ih (attempt + 1) (launches + 1) fs r fs2 h

/-- C5: if a run call for a date succeeds, a second run call for the same
date against the resulting filesystem launches no browser, performs no
navigation, and returns the same artifact reference. -/
theorem c5_second_run_no_browser (env : HarvestEnv) (date : String) (fs : FS)
    (r : RunOutcome) (fs2 : FS)
    (h : run env date fs = Except.ok (r, fs2)) :
    run env date fs2 = Except.ok (⟨0, 0, r.ref⟩, fs2) := by
  obtain ⟨href, hmem⟩ := runRetry_ok_ref env date 3 0 0 fs r fs2 h
  show runRetry env date 0 0 (2 + 1) fs2 = _
  rw [runRetry_succ, if_pos hmem, href]

/-- C5 witness: a concrete first run followed by a browser-free second
run. -/
theorem c5_witness :
    run exEnv "2025-01-01" exFS1
      = Except.ok (⟨0, 0, "https://s3//tmp/ctis_2025-01-01.csv"⟩, exFS1) :=
  c5_second_run_no_browser exEnv "2025-01-01" ⟨[]⟩
    ⟨1, 1, "https://s3//tmp/ctis_2025-01-01.csv"⟩ exFS1 (by decide)

end CtisHarvester

namespace Ctgov

/-- The orchestrator invariant: the accumulated total always equals the sum
of the writer counts over the written batches. -/
lemma orchLoop_total (w : List Trial → Nat) (bs maxT : Nat) :
    ∀ (evs : List StreamEvent) (batch : List Trial) (count total : Nat)
      (written : List (List Trial)),
      total = (written.map w).sum →
      (orchLoop w bs maxT evs batch count total written).total
        = ((orchLoop w bs maxT evs batch count total written).written.map w).sum := by
  intro evs
  induction evs with
  | nil =>
      intro batch count total written ht
      cases batch with
      | nil => simpa [orchLoop] using ht
      | cons x xs => simp [orchLoop, ht]
  | cons ev rest ih =>
      cases ev with
      | fail msg =>
          intro batch count total written ht
          cases batch with
          | nil => simpa [orchLoop] using ht
          | cons x xs => simp [orchLoop, ht]
      | item t =>
          intro batch count total written ht
          by_cases h1 : bs ≤ batch.length + 1
          · by_cases h2 : maxT ≤ count + 1
            · simp [orchLoop, h1, h2, ht]
            · have hrec := ih [] (count + 1) (total + w (batch ++ [t]))
                (written ++ [batch ++ [t]]) (by simp [ht])
              simpa [orchLoop, h1, h2] using hrec
          · by_cases h2 : maxT ≤ count + 1
            · simp [orchLoop, h1, h2, ht]
            · have hrec := ih (batch ++ [t]) (count + 1) total written ht
              simpa [orchLoop, h1, h2] using hrec

/-- When the stream fails after pre items without reaching max_trials, the
written batches cover the pending batch and every consumed item. -/
lemma orchLoop_flatten (w : List Trial → Nat) (bs maxT : Nat) (e : String)
    (rest0 : List StreamEvent) :
    ∀ (pre : List Trial) (batch : List Trial) (count total : Nat)
      (written : List (List Trial)),
      count + pre.length ≤ maxT →
      (orchLoop w bs maxT
          (pre.map StreamEvent.item ++ StreamEvent.fail e :: rest0)
          batch count total written).written.flatten
        = written.flatten ++ batch ++ pre := by
  intro pre
  induction pre with
  | nil =>
      intro batch count total written _
      cases batch with
      | nil => simp [orchLoop]
      | cons x xs => simp [orchLoop]
  | cons t pre ih =>
      intro batch count total written hle
      have hle2 : count + 1 + pre.length ≤ maxT := by
        simp only [List.length_cons] at hle
        omega
      simp only [List.map_cons, List.cons_append]
      by_cases h1 : bs ≤ batch.length + 1
      · by_cases h2 : maxT ≤ count + 1
        · have hlen : pre.length = 0 := by omega
          have hpre : pre = [] := List.length_eq_zero.mp hlen
          subst hpre
          simp [orchLoop, h1, h2, List.flatten_append, List.append_assoc]
        · have hrec := ih [] (count + 1) (total + w (batch ++ [t]))
            (written ++ [batch ++ [t]]) (by simpa using hle2)
          rw [show (orchLoop w bs maxT
              (StreamEvent.item t :: (pre.map StreamEvent.item
                ++ StreamEvent.fail e :: rest0)) batch count total written)
              = orchLoop w bs maxT
                  (pre.map StreamEvent.item ++ StreamEvent.fail e :: rest0)
                  [] (count + 1) (total + w (batch ++ [t]))
                  (written ++ [batch ++ [t]])
            from by simp [orchLoop, h1, h2]]
          rw [hrec]
          simp [List.flatten_append, List.append_assoc]
      · by_cases h2 : maxT ≤ count + 1
        · have hlen : pre.length = 0 := by omega
          have hpre : pre = [] := List.length_eq_zero.mp hlen
          subst hpre
          simp [orchLoop, h1, h2, List.flatten_append, List.append_assoc]
        · have hrec := ih (batch ++ [t]) (count + 1) total written hle2
          rw [show (orchLoop w bs maxT
              (StreamEvent.item t :: (pre.map StreamEvent.item
                ++ StreamEvent.fail e :: rest0)) batch count total written)
              = orchLoop w bs maxT
                  (pre.map StreamEvent.item ++ StreamEvent.fail e :: rest0)
                  (batch ++ [t]) (count + 1) total written
            from by simp [orchLoop, h1, h2]]
          rw [hrec]
          simp [List.append_assoc]

/-- C8: when pulling the next record raises after pre records were consumed
(within max_trials), the orchestrator flushes every buffered record through
the writer before reporting: the written batches flatten to exactly the
consumed records, and the reported total is the sum of the writer counts
over the written batches, the final partial batch included. -/
theorem c8_flush_on_stream_error (w : List Trial → Nat) (pre : List Trial)
    (e : String) (rest0 : List StreamEvent) (maxT bs : Nat)
    (h : pre.length ≤ maxT) :
    (get_trials_and_save w bs maxT
        (pre.map StreamEvent.item ++ StreamEvent.fail e :: rest0)).written.flatten
      = pre ∧
    (get_trials_and_save w bs maxT
        (pre.map StreamEvent.item ++ StreamEvent.fail e :: rest0)).total
      = ((get_trials_and_save w bs maxT
          (pre.map StreamEvent.item
            ++ StreamEvent.fail e :: rest0)).written.map w).sum := by
  constructor
  · have hfl := orchLoop_flatten w bs maxT e rest0 pre [] 0 0 []
      (by simpa using h)
    simpa [get_trials_and_save] using hfl
  · exact orchLoop_total w bs maxT
      (pre.map StreamEvent.item ++ StreamEvent.fail e :: rest0) [] 0 0 [] rfl

/-- C8 witness: a concrete three-record stream that fails mid-run with
batch size two flushes the pending one-record batch and counts it. -/
theorem c8_witness :
    (get_trials_and_save List.length 2 10
        ([dummyTrial "A", dummyTrial "B", dummyTrial "C"].map StreamEvent.item
          ++ StreamEvent.fail "boom" :: [])).written.flatten
      = [dummyTrial "A", dummyTrial "B", dummyTrial "C"] ∧
    (get_trials_and_save List.length 2 10
        ([dummyTrial "A", dummyTrial "B", dummyTrial "C"].map StreamEvent.item
          ++ StreamEvent.fail "boom" :: [])).total
      = ((get_trials_and_save List.length 2 10
          ([dummyTrial "A", dummyTrial "B", dummyTrial "C"].map StreamEvent.item
            ++ StreamEvent.fail "boom" :: [])).written.map List.length).sum :=
  c8_flush_on_stream_error List.length
    [dummyTrial "A", dummyTrial "B", dummyTrial "C"] "boom" [] 10 2 (by decide)

end Ctgov
